import Mathlib

/-!
Shallow embedding of the Atlas device-information collector
(`src/atlas/core/_infra/device_info.py` together with the models in
`src/atlas/models/domain/_infra/device_info/`).

Python exceptions are modelled by an explicit `Exn` value carrying the
exception class (only the classes the code discriminates on) and the
exception message; fallible code returns `Except`.  OS facilities
(psutil, socket, winreg, files, subprocesses) are modelled as
environment records supplying the raw values or the raw exceptions those
calls produce; the collector functions below are line-by-line
translations of the Python methods over those environments.
Python floats are modelled by rationals; Python `round(x, 2)`
(round-half-to-even at two decimals) is `round2`.
-/

namespace Atlas

/-- The Python exception classes that `device_info.py` discriminates on.
`fileNotFound` and `permission` are subclasses of `OSError`;
`systemError` and `unicodeDecode` are the classes caught by the
psutil→shutil disk-usage fallback; `other` stands for any other
`Exception` subclass. -/
inductive ExnKind where
  | fileNotFound
  | permission
  | osError
  | systemError
  | unicodeDecode
  | other
deriving DecidableEq, Repr

/-- A raised Python exception: its class and its `str(e)` message. -/
structure Exn where
  kind : ExnKind
  msg : String
deriving DecidableEq, Repr

/-- Whether an exception is caught by `except (PermissionError, OSError)`:
`FileNotFoundError` and `PermissionError` are `OSError` subclasses. -/
def ExnKind.isOSError : ExnKind → Bool
  | .fileNotFound => true
  | .permission => true
  | .osError => true
  | _ => false

/-- Whether an exception is caught by `except (SystemError, UnicodeDecodeError)`. -/
def ExnKind.isFallbackKind : ExnKind → Bool
  | .systemError => true
  | .unicodeDecode => true
  | _ => false

/-- Python `round` to an integer: round half to even (banker's rounding). -/
def pyRoundInt (x : ℚ) : ℤ :=
  let n := ⌊x⌋
  let frac := x - (n : ℚ)
  if frac < 1/2 then n
  else if 1/2 < frac then n + 1
  else if n % 2 = 0 then n else n + 1

/-- Python `round(x, 2)`. -/
def round2 (x : ℚ) : ℚ :=
  (pyRoundInt (x * 100) : ℚ) / 100

/-- Python truthiness of an optional string (`if local_ip:`):
`None` and the empty string are falsy. -/
def pyTruthyStr : Option String → Bool
  | none => false
  | some s => !(s = "")

/-- Python `str.lower()`: lowercase every character. -/
def pyLower (s : String) : String := ⟨s.data.map Char.toLower⟩

/-- Whether the second character sequence is an initial segment of the
first. -/
def charsBeginWith : List Char → List Char → Bool
  | _, [] => true
  | [], _ :: _ => false
  | c :: cs, p :: ps => c = p && charsBeginWith cs ps

/-- Python `s.startswith(p)`. -/
def pyStartsWith (s p : String) : Bool := charsBeginWith s.data p.data

/-- Python `str.strip()`: drop leading and trailing whitespace. -/
def pyStrip (s : String) : String :=
  ⟨((s.data.dropWhile Char.isWhitespace).reverse.dropWhile Char.isWhitespace).reverse⟩

/-! ## Models (`models/domain/_infra/device_info/methods/`) -/

/-- `GetDeviceInfoParams`: the five inclusion flags, all defaulting to `True`. -/
structure GetDeviceInfoParams where
  include_platform : Bool := true
  include_cpu : Bool := true
  include_memory : Bool := true
  include_disk : Bool := true
  include_network : Bool := true
deriving DecidableEq, Repr

/-- `PlatformInfoReturn`. -/
structure PlatformInfoReturn where
  hostname : Option String
  machine_id : Option String
  os_name : Option String
  os_version : Option String
  python_version : Option String
  platform : Option String
  architecture : Option String
  processor : Option String
  boot_time : Option ℚ
  uptime : Option ℚ
deriving DecidableEq, Repr, Inhabited

/-- `CPUInfoReturn`. -/
structure CPUInfoReturn where
  brand_raw : Option String
  vendor_id_raw : Option String
  arch : Option String
  bits : Option Nat
  physical_cores : Option Nat
  logical_cores : Option Nat
  current_freq : Option ℚ
  min_freq : Option ℚ
  max_freq : Option ℚ
  base_freq : Option ℚ
  cpu_usage : Option ℚ
  l_two_cache_size : Option Nat
  l_three_cache_size : Option Nat
  family : Option Nat
  model : Option Nat
  stepping : Option Nat
  flags : Option (List String)
deriving DecidableEq, Repr, Inhabited

/-- `MemoryInfoReturn`. -/
structure MemoryInfoReturn where
  total : Option Nat
  available : Option Nat
  percent : Option ℚ
  used : Option Nat
  free : Option Nat
  swap_total : Option Nat
  swap_used : Option Nat
  swap_percent : Option ℚ
  swap_free : Option Nat
  buffers : Option Nat
  cached : Option Nat
  shared : Option Nat
deriving DecidableEq, Repr, Inhabited

/-- `DiskPartitionInfo`. -/
structure DiskPartitionInfo where
  device : Option String
  mountpoint : Option String
  fstype : Option String
  total : Option Nat
  used : Option Nat
  free : Option Nat
  percent : Option ℚ
deriving DecidableEq, Repr

/-- `DiskIOInfo`. -/
structure DiskIOInfo where
  read_count : Option Nat
  write_count : Option Nat
  read_bytes : Option Nat
  write_bytes : Option Nat
  read_time : Option Nat
  write_time : Option Nat
  read_merged_count : Option Nat
  write_merged_count : Option Nat
  busy_time : Option Nat
deriving DecidableEq, Repr

/-- `DiskInfoReturn`. -/
structure DiskInfoReturn where
  partitions : List DiskPartitionInfo
  total_disk_space : Option Nat
  total_used_space : Option Nat
  total_free_space : Option Nat
  io_stats : Option DiskIOInfo
  average_usage_percent : Option ℚ
deriving DecidableEq, Repr, Inhabited

/-- `NetworkInfoReturn`. -/
structure NetworkInfoReturn where
  public_ip : Option String
  local_ip : Option String
  mac_address : Option String
  hostname : Option String
  interface_speed : Option ℤ
  total_bytes_sent : Option Nat
  total_bytes_recv : Option Nat
  interface_name : Option String
  download_speed : Option ℚ
  upload_speed : Option ℚ
  ping : Option ℚ
deriving DecidableEq, Repr, Inhabited

/-- `GetDeviceInfoReturn`: all categories default to null. -/
structure GetDeviceInfoReturn where
  platform : Option PlatformInfoReturn := none
  cpu : Option CPUInfoReturn := none
  memory : Option MemoryInfoReturn := none
  disk : Option DiskInfoReturn := none
  network : Option NetworkInfoReturn := none
  timestamp : Option ℚ := none
deriving DecidableEq, Repr

/-! ## Platform sub-collector (`DeviceInfo._platform_info`) -/

/-- The OS facilities `_platform_info` consults.  `system` is the raw
`platform.system()` value (lowercased by the collector); the three
machine-id sources are the raw outcomes of the corresponding OS calls:
the Windows registry read, `open("/etc/machine-id").read()`,
`open("/var/lib/dbus/machine-id").read()`, and the Darwin
`ioreg` subprocess combined with the `IOPlatformUUID` regex search
(`.ok none` = subprocess succeeded but the pattern did not match). -/
structure PlatformEnv where
  gethostname : Except Exn String
  system : String
  version : String
  python_version : String
  platform_str : String
  machine : String
  processor : String
  boot_time : ℚ
  now : ℚ
  winreg_machine_guid : Except Exn String
  read_etc_machine_id : Except Exn String
  read_dbus_machine_id : Except Exn String
  ioreg_uuid_match : Except Exn (Option String)
deriving Repr

/-- The machine-id resolution block of `_platform_info` (lines 111–151):
Windows swallows every failure; Linux catches only `FileNotFoundError`
on `/etc/machine-id` (falling back to the dbus file, whose failures are
all swallowed) and lets any other exception escape to the enclosing
`try`; Darwin swallows every failure; other OS names leave the id null. -/
def machineIdResolve (env : PlatformEnv) (os_name : String) : Except Exn (Option String) :=
  if os_name = "windows" then
    match env.winreg_machine_guid with
    | .ok v => .ok (some v)
    | .error _ => .ok none
  else if os_name = "linux" then
    match env.read_etc_machine_id with
    | .ok s => .ok (some (pyStrip s))
    | .error e =>
      if e.kind = .fileNotFound then
        match env.read_dbus_machine_id with
        | .ok s => .ok (some (pyStrip s))
        | .error _ => .ok none
      else .error e
  else if os_name = "darwin" then
    match env.ioreg_uuid_match with
    | .ok m => .ok m
    | .error _ => .ok none
  else .ok none

/-- `DeviceInfo._platform_info` (lines 96–167): every exception escaping
the body is re-raised as `RuntimeError("Failed to get platform info: {e}")`. -/
def platform_info (env : PlatformEnv) : Except String PlatformInfoReturn :=
  match env.gethostname with
  | .error e => .error ("Failed to get platform info: " ++ e.msg)
  | .ok hostname =>
    let os_name := pyLower env.system
    match machineIdResolve env os_name with
    | .error e => .error ("Failed to get platform info: " ++ e.msg)
    | .ok machine_id =>
      .ok {
        hostname := some hostname
        machine_id := machine_id
        os_name := some os_name
        os_version := some env.version
        python_version := some env.python_version
        platform := some env.platform_str
        architecture := some env.machine
        processor := some env.processor
        boot_time := some env.boot_time
        uptime := some (env.now - env.boot_time)
      }

/-! ## CPU sub-collector (`DeviceInfo._cpu_info`) -/

/-- The raw data `_cpu_info` queries: `psutil.cpu_freq()` (nullable
current/min/max triple), the `cpuinfo.get_cpu_info()` dictionary
(each `.get` modelled as an optional field; `hz_advertised` is the
(hz, precision) pair, present only when the key exists and is truthy),
`psutil.cpu_percent(interval=0.1)` and
`psutil.cpu_count(logical=False)`.  The whole query bundle either
succeeds or raises. -/
structure CpuQuery where
  cpu_freq : Option (ℚ × ℚ × ℚ)
  brand_raw : Option String
  vendor_id_raw : Option String
  arch : Option String
  bits : Option Nat
  count : Option Nat
  hz_advertised : Option (ℚ × ℚ)
  l2_cache_size : Option Nat
  l3_cache_size : Option Nat
  family : Option Nat
  model : Option Nat
  stepping : Option Nat
  flags : Option (List String)
  cpu_usage : ℚ
  physical_cores : Option Nat
deriving Repr

/-- Python `physical_cores or cpu_info.get("count")`: `None` and `0`
are falsy, so both fall through to the cpuinfo count. -/
def pyOrCount (a b : Option Nat) : Option Nat :=
  match a with
  | some n => if n = 0 then b else some n
  | none => b

/-- `DeviceInfo._cpu_info` (lines 169–210): failures are wrapped as
`RuntimeError("Failed to obtain CPU information: {e}")`. -/
def cpu_info (q : Except Exn CpuQuery) : Except String CPUInfoReturn :=
  match q with
  | .error e => .error ("Failed to obtain CPU information: " ++ e.msg)
  | .ok c =>
    let base_freq : Option ℚ :=
      match c.hz_advertised with
      | some hz => some (hz.1 / 1000000)
      | none => none
    .ok {
      brand_raw := c.brand_raw
      vendor_id_raw := c.vendor_id_raw
      arch := c.arch
      bits := c.bits
      physical_cores := pyOrCount c.physical_cores c.count
      logical_cores := c.count
      current_freq := c.cpu_freq.map (·.1)
      min_freq := c.cpu_freq.map (·.2.1)
      max_freq := c.cpu_freq.map (·.2.2)
      base_freq := base_freq
      cpu_usage := some c.cpu_usage
      l_two_cache_size := c.l2_cache_size
      l_three_cache_size := c.l3_cache_size
      family := c.family
      model := c.model
      stepping := c.stepping
      flags := c.flags
    }

/-! ## Memory sub-collector (`DeviceInfo._memory_info`) -/

/-- The raw data `_memory_info` queries: `psutil.virtual_memory()`,
`psutil.swap_memory()`, and the `getattr(vm, ..., None)` lookups for
the OS-dependent buffer/cache/shared figures. -/
structure MemQuery where
  vm_total : Nat
  vm_available : Nat
  vm_percent : ℚ
  vm_used : Nat
  vm_free : Nat
  swap_total : Nat
  swap_used : Nat
  swap_percent : ℚ
  swap_free : Nat
  buffers : Option Nat
  cached : Option Nat
  shared : Option Nat
deriving Repr

/-- `DeviceInfo._memory_info` (lines 212–246): failures are wrapped as
`RuntimeError("Failed to get memory info: {e}")`. -/
def memory_info (q : Except Exn MemQuery) : Except String MemoryInfoReturn :=
  match q with
  | .error e => .error ("Failed to get memory info: " ++ e.msg)
  | .ok m =>
    .ok {
      total := some m.vm_total
      available := some m.vm_available
      percent := some m.vm_percent
      used := some m.vm_used
      free := some m.vm_free
      swap_total := some m.swap_total
      swap_used := some m.swap_used
      swap_percent := some m.swap_percent
      swap_free := some m.swap_free
      buffers := m.buffers
      cached := m.cached
      shared := m.shared
    }

/-! ## Disk sub-collector (`DeviceInfo._disk_info`) -/

/-- One entry of `psutil.disk_partitions()` together with the raw
outcomes of the usage queries on its mountpoint:
`psutil.disk_usage` gives (total, used, free); the `shutil.disk_usage`
fallback gives (total, used, free) of which the code uses total,
total − free and free. -/
structure PartitionEnv where
  device : String
  mountpoint : String
  fstype : String
  psutil_usage : Except Exn (Nat × Nat × Nat)
  shutil_usage : Except Exn (Nat × Nat × Nat)
deriving Repr

/-- The per-partition usage resolution of `_disk_info` (lines 268–307):
`psutil.disk_usage` first; on `SystemError`/`UnicodeDecodeError` fall
back to `shutil.disk_usage` (used = total − free); an `OSError`-family
exception from either call is caught by
`except (PermissionError, OSError): continue` and skips the partition
(`.ok none`); any other exception escapes the loop (`.error`). -/
def resolveUsage (p : PartitionEnv) : Except Exn (Option (Nat × Nat × Nat)) :=
  match p.psutil_usage with
  | .ok (t, u, f) => .ok (some (t, u, f))
  | .error e =>
    if e.kind.isFallbackKind then
      match p.shutil_usage with
      | .ok (t, _, f) => .ok (some (t, t - f, f))
      | .error e2 => if e2.kind.isOSError then .ok none else .error e2
    else if e.kind.isOSError then .ok none
    else .error e

/-- The partition-percent formula of `_disk_info` (lines 282–286):
`round(used/total*100, 2)` when `total > 0`, else `0.0`. -/
def partitionPercent (total used : Nat) : ℚ :=
  if 0 < total then round2 ((used : ℚ) / (total : ℚ) * 100) else 0

/-- The `DiskPartitionInfo` built for an accessible partition
(lines 288–296). -/
def mkPartitionInfo (p : PartitionEnv) (t u f : Nat) : DiskPartitionInfo :=
  { device := some p.device
    mountpoint := some p.mountpoint
    fstype := some p.fstype
    total := some t
    used := some u
    free := some f
    percent := some (partitionPercent t u) }

/-- Accumulator state of the partition loop: the growing
`partitions_info` list, the three byte totals and the
`usage_percentages` list. -/
structure DiskAcc where
  partitions_info : List DiskPartitionInfo
  total_disk_space : Nat
  total_used_space : Nat
  total_free_space : Nat
  usage_percentages : List ℚ
deriving Repr

/-- The partition loop of `_disk_info` (lines 267–307), threading the
accumulators; an unabsorbed exception aborts the loop. -/
def diskLoop (ps : List PartitionEnv) (acc : DiskAcc) : Except Exn DiskAcc :=
  match ps with
  | [] => .ok acc
  | p :: rest =>
    match resolveUsage p with
    | .error e => .error e
    | .ok none => diskLoop rest acc
    | .ok (some (t, u, f)) =>
      diskLoop rest {
        partitions_info := acc.partitions_info ++ [mkPartitionInfo p t u f]
        total_disk_space := acc.total_disk_space + t
        total_used_space := acc.total_used_space + u
        total_free_space := acc.total_free_space + f
        usage_percentages := acc.usage_percentages ++ [partitionPercent t u] }

/-- The OS facilities `_disk_info` consults: the outcome of
`psutil.disk_partitions()` and the outcome of
`psutil.disk_io_counters()` (which may return a falsy value, modelled
as `.ok none`). -/
structure DiskEnv where
  disk_partitions : Except Exn (List PartitionEnv)
  disk_io_counters : Except Exn (Option DiskIOInfo)
deriving Repr

/-- `DeviceInfo._disk_info` (lines 248–343): enumerate partitions, run
the loop, compute the average percentage (null when no partition was
accessible), read I/O counters best-effort (`except Exception: pass`),
and wrap any escaping exception as
`RuntimeError("Failed to get disk info: {e}")`. -/
def disk_info (env : DiskEnv) : Except String DiskInfoReturn :=
  match env.disk_partitions with
  | .error e => .error ("Failed to get disk info: " ++ e.msg)
  | .ok partitions =>
    match diskLoop partitions ⟨[], 0, 0, 0, []⟩ with
    | .error e => .error ("Failed to get disk info: " ++ e.msg)
    | .ok acc =>
      let average_usage_percent : Option ℚ :=
        if acc.usage_percentages = [] then none
        else some (round2 (acc.usage_percentages.sum / (acc.usage_percentages.length : ℚ)))
      let io_stats : Option DiskIOInfo :=
        match env.disk_io_counters with
        | .ok v => v
        | .error _ => none
      .ok {
        partitions := acc.partitions_info
        total_disk_space := some acc.total_disk_space
        total_used_space := some acc.total_used_space
        total_free_space := some acc.total_free_space
        io_stats := io_stats
        average_usage_percent := average_usage_percent
      }

/-! ## Network sub-collector (`DeviceInfo._network_info`) -/

/-- Python `socket.AF_INET` / `psutil.AF_LINK` / other address families. -/
inductive AddrFamily where
  | afInet
  | afLink
  | otherFamily
deriving DecidableEq, Repr

/-- One entry of an interface's `psutil.net_if_addrs()` address list. -/
structure IfAddr where
  family : AddrFamily
  address : String
deriving DecidableEq, Repr

/-- One entry of `psutil.net_if_stats()`. -/
structure IfStats where
  isup : Bool
  speed : ℤ
deriving DecidableEq, Repr

/-- The selection state threaded through the interface loop of
`_network_info` (lines 358–381). -/
structure IfaceSel where
  local_ip : Option String := none
  mac_address : Option String := none
  interface_name : Option String := none
  interface_speed : Option ℤ := none
deriving DecidableEq, Repr

/-- The loopback-name test of line 364:
`iface.lower().startswith(('lo', 'loopback'))`. -/
def isLoopbackName (iface : String) : Bool :=
  pyStartsWith (pyLower iface) "lo" || pyStartsWith (pyLower iface) "loopback"

/-- The inner address loop (lines 367–379): take the first `AF_INET`
address not starting with `"127."` whose interface stats exist and are
up; record ip/name/speed and the interface's first `AF_LINK` address
(`for a in addrs` scans the full list again; when none exists the
previous MAC is kept), then break.  `allAddrs` is the interface's full
address list, `addrs` the part the loop has not consumed yet. -/
def scanAddrs (stats : Option IfStats) (iface : String) (allAddrs : List IfAddr) :
    List IfAddr → IfaceSel → IfaceSel
  | [], st => st
  | a :: rest, st =>
    if a.family = .afInet && !(pyStartsWith a.address "127.") then
      match stats with
      | some s =>
        if s.isup then
          { local_ip := some a.address
            interface_name := some iface
            interface_speed := if 0 < s.speed then some s.speed else none
            mac_address :=
              match allAddrs.find? (fun x => x.family = .afLink) with
              | some link => some link.address
              | none => st.mac_address }
        else scanAddrs stats iface allAddrs rest st
      | none => scanAddrs stats iface allAddrs rest st
    else scanAddrs stats iface allAddrs rest st

/-- The outer interface loop (lines 363–381): skip loopback-named
interfaces, scan the rest in order, and stop as soon as `local_ip` is
truthy. -/
def scanIfaces (stats : String → Option IfStats)
    (ifaces : List (String × List IfAddr)) (st : IfaceSel) : IfaceSel :=
  match ifaces with
  | [] => st
  | (iface, addrs) :: rest =>
    if isLoopbackName iface then scanIfaces stats rest st
    else
      let st2 := scanAddrs (stats iface) iface addrs addrs st
      if pyTruthyStr st2.local_ip then st2 else scanIfaces stats rest st2

/-- The OS facilities `_network_info` consults.  `public_ip` and `ping`
are the already-absorbed outcomes of the curl service loop
(lines 383–398) and the ping probe (lines 414–435), both of which
swallow every failure and yield `None` at worst; the three
`psutil.net_io_counters()` readings of lines 400, 404 and 406 are the
(bytes_sent, bytes_recv) pairs `net_io`, `net_io_start`, `net_io_end`. -/
structure NetEnv where
  gethostname : Except Exn String
  net_if_addrs : List (String × List IfAddr)
  net_if_stats : String → Option IfStats
  public_ip : Option String
  net_io_total : Nat × Nat
  net_io_start : Nat × Nat
  net_io_end : Nat × Nat
  ping : Option ℚ

/-- The throughput formula of lines 408–412:
`round(diff_bytes * 8 / 3_000_000, 2)` over the 3-second window
(the byte difference is a Python int and may be negative). -/
def throughputMbps (startBytes endBytes : Nat) : ℚ :=
  round2 ((((endBytes : ℤ) - (startBytes : ℤ) : ℤ) : ℚ) * 8 / 3000000)

/-- `DeviceInfo._network_info` (lines 345–452): hostname, primary
interface selection, best-effort public IP, cumulative counters, the
3-second throughput sample (reported as null unless strictly
positive, lines 446–447), best-effort ping; any escaping exception is
wrapped as `RuntimeError("Failed to get network info: {e}")`. -/
def network_info (env : NetEnv) : Except String NetworkInfoReturn :=
  match env.gethostname with
  | .error e => .error ("Failed to get network info: " ++ e.msg)
  | .ok hostname =>
    let sel := scanIfaces env.net_if_stats env.net_if_addrs {}
    let download_speed := throughputMbps env.net_io_start.2 env.net_io_end.2
    let upload_speed := throughputMbps env.net_io_start.1 env.net_io_end.1
    .ok {
      public_ip := env.public_ip
      local_ip := sel.local_ip
      mac_address := sel.mac_address
      hostname := some hostname
      interface_speed := sel.interface_speed
      total_bytes_sent := some env.net_io_total.1
      total_bytes_recv := some env.net_io_total.2
      interface_name := sel.interface_name
      download_speed := if 0 < download_speed then some download_speed else none
      upload_speed := if 0 < upload_speed then some upload_speed else none
      ping := env.ping
    }

/-! ## Orchestrator (`DeviceInfo.get_device_info`) -/

/-- The environments of the five sub-collectors plus the
`time.time()` value stamped on the snapshot (line 73). -/
structure DeviceEnv where
  platformEnv : PlatformEnv
  cpuQuery : Except Exn CpuQuery
  memQuery : Except Exn MemQuery
  diskEnv : DiskEnv
  netEnv : NetEnv
  now : ℚ

/-- One `if params.include_x: result.x = self._x_info()` step of the
orchestrator: skipped when the flag is off or a previous step already
raised. -/
def collectStep {α : Type} (cond : Bool) (sub : Except String α)
    (set : α → GetDeviceInfoReturn → GetDeviceInfoReturn)
    (acc : Except String GetDeviceInfoReturn) : Except String GetDeviceInfoReturn :=
  match acc with
  | .error e => .error e
  | .ok r =>
    if cond then
      match sub with
      | .ok v => .ok (set v r)
      | .error e => .error e
    else .ok r

/-- The body of the `try` block of `get_device_info` (lines 75–91):
the five `if params.include_x: result.x = self._x_info()` statements,
in source order, starting from the snapshot carrying only the
timestamp of line 73. -/
def collectBody (env : DeviceEnv) (p : GetDeviceInfoParams) :
    Except String GetDeviceInfoReturn :=
  collectStep p.include_network (network_info env.netEnv)
    (fun v r => { r with network := some v })
    (collectStep p.include_disk (disk_info env.diskEnv)
      (fun v r => { r with disk := some v })
      (collectStep p.include_memory (memory_info env.memQuery)
        (fun v r => { r with memory := some v })
        (collectStep p.include_cpu (cpu_info env.cpuQuery)
          (fun v r => { r with cpu := some v })
          (collectStep p.include_platform (platform_info env.platformEnv)
            (fun v r => { r with platform := some v })
            (.ok { timestamp := some env.now })))))

/-- `DeviceInfo.get_device_info` (lines 53–94): default the params,
stamp the timestamp, run the five sub-collectors in order under one
`try`, and wrap any escaping exception as
`RuntimeError("Failed to get device information: {e}")`. -/
def get_device_info (env : DeviceEnv) (params : Option GetDeviceInfoParams) :
    Except String GetDeviceInfoReturn :=
  let p := params.getD {}
  match collectBody env p with
  | .ok r => .ok r
  | .error e => .error ("Failed to get device information: " ++ e)

/-! ## Spec-side observers used to state the claims -/

/-- The message of a failing call, `none` when it succeeded. -/
def errMsg {α : Type} : Except String α → Option String
  | .error e => some e
  | .ok _ => none

/-- The category-level error message of the first enabled sub-collector
that fails, in the order `get_device_info` invokes them;
`none` when every enabled sub-collector succeeds. -/
def firstEnabledFailure (env : DeviceEnv) (p : GetDeviceInfoParams) : Option String :=
  ((((if p.include_platform then errMsg (platform_info env.platformEnv) else none) <|>
      (if p.include_cpu then errMsg (cpu_info env.cpuQuery) else none)) <|>
      (if p.include_memory then errMsg (memory_info env.memQuery) else none)) <|>
      (if p.include_disk then errMsg (disk_info env.diskEnv) else none)) <|>
      (if p.include_network then errMsg (network_info env.netEnv) else none)

/-- The accessible partitions of an enumeration, each paired with the
(total, used, free) its usage queries resolve to; partitions skipped by
the `except (PermissionError, OSError): continue` policy are dropped. -/
def accessibleOf (ps : List PartitionEnv) : List (PartitionEnv × (Nat × Nat × Nat)) :=
  ps.filterMap fun p =>
    match resolveUsage p with
    | .ok (some u) => some (p, u)
    | _ => none

/-! ## Singleton access point (`DeviceInfo.__new__`, lines 39–51)

Object identity is modelled by a fresh-id allocator: `next_id` is the
identity the next `super().__new__` call would produce, and
`cached_instance` is the class attribute `_instance`.  Under the lock
the double-checked pattern collapses to a single check per sequential
call. -/

/-- The process-wide mutable state of the singleton:
`DeviceInfo._instance` plus the allocator of fresh object identities. -/
structure SingletonState where
  cached_instance : Option Nat
  next_id : Nat
deriving DecidableEq, Repr

/-- `DeviceInfo.__new__`: return the cached instance if present,
otherwise construct a fresh object, cache it and return it. -/
def deviceInfoNew (s : SingletonState) : SingletonState × Nat :=
  match s.cached_instance with
  | some i => (s, i)
  | none => (⟨some s.next_id, s.next_id + 1⟩, s.next_id)

/-- `n` successive constructions `DeviceInfo()` from state `s`:
final state and the list of returned object identities. -/
def deviceInfoCalls (n : Nat) (s : SingletonState) : SingletonState × List Nat :=
  match n with
  | 0 => (s, [])
  | n + 1 =>
    let (s1, i) := deviceInfoNew s
    let (s2, is) := deviceInfoCalls n s1
    (s2, i :: is)

/-- The state of a process before the first `DeviceInfo()` call:
`_instance = None`, next fresh identity 0. -/
def initialSingletonState : SingletonState := ⟨none, 0⟩

/-! ## Concrete environments used to instantiate the theorems -/

/-- A Linux host on which every platform query succeeds. -/
def samplePlatformEnv : PlatformEnv where
  gethostname := .ok "atlas-host"
  system := "Linux"
  version := "6.1.0-generic"
  python_version := "3.11.4"
  platform_str := "Linux-6.1.0-x86_64"
  machine := "x86_64"
  processor := "x86_64"
  boot_time := 1000
  now := 1500
  winreg_machine_guid := .error ⟨.other, "winreg unavailable"⟩
  read_etc_machine_id := .ok "abc123"
  read_dbus_machine_id := .error ⟨.fileNotFound, "no dbus file"⟩
  ioreg_uuid_match := .error ⟨.other, "no ioreg"⟩

/-- A Linux host on which `/etc/machine-id` exists but is unreadable
(`PermissionError`), while the dbus fallback file would be readable. -/
def linuxPermDeniedEnv : PlatformEnv :=
  { samplePlatformEnv with
    read_etc_machine_id := .error ⟨.permission, "permission denied"⟩
    read_dbus_machine_id := .ok "dbusid" }

/-- A Linux host on which `/etc/machine-id` is absent
(`FileNotFoundError`) and the dbus fallback file is readable. -/
def linuxAbsentEtcEnv : PlatformEnv :=
  { samplePlatformEnv with
    read_etc_machine_id := .error ⟨.fileNotFound, "no such file"⟩
    read_dbus_machine_id := .ok "dbusid" }

/-- A successful CPU query bundle. -/
def sampleCpuQuery : Except Exn CpuQuery := .ok {
  cpu_freq := some (2400, 800, 3600)
  brand_raw := some "Test CPU"
  vendor_id_raw := some "TestVendor"
  arch := some "X86_64"
  bits := some 64
  count := some 8
  hz_advertised := some (2400000000, 0)
  l2_cache_size := some 524288
  l3_cache_size := some 8388608
  family := some 6
  model := some 42
  stepping := some 1
  flags := some ["sse", "sse2"]
  cpu_usage := 12
  physical_cores := some 4 }

/-- A successful memory query bundle. -/
def sampleMemQuery : Except Exn MemQuery := .ok {
  vm_total := 1000
  vm_available := 600
  vm_percent := 40
  vm_used := 400
  vm_free := 600
  swap_total := 100
  swap_used := 0
  swap_percent := 0
  swap_free := 100
  buffers := none
  cached := none
  shared := none }

/-- An accessible partition: 1000 bytes total, 250 used, 750 free. -/
def samplePartition : PartitionEnv where
  device := "/dev/sda1"
  mountpoint := "/"
  fstype := "ext4"
  psutil_usage := .ok (1000, 250, 750)
  shutil_usage := .ok (1000, 250, 750)

/-- A partition whose usage queries are denied:
`psutil.disk_usage` raises `PermissionError`, so the partition is
skipped by the per-partition policy. -/
def deniedPartition : PartitionEnv where
  device := "/dev/sdb1"
  mountpoint := "/locked"
  fstype := "ext4"
  psutil_usage := .error ⟨.permission, "denied"⟩
  shutil_usage := .error ⟨.permission, "denied"⟩

/-- A disk environment with one accessible and one denied partition,
and failing system-wide I/O counters. -/
def sampleDiskEnv : DiskEnv where
  disk_partitions := .ok [samplePartition, deniedPartition]
  disk_io_counters := .error ⟨.other, "counters unavailable"⟩

/-- A network environment with one non-loopback interface that is up,
no traffic on the send side and 750000 received bytes over the
3-second window. -/
def sampleNetEnv : NetEnv where
  gethostname := .ok "atlas-host"
  net_if_addrs := [("eth0", [⟨.afInet, "192.168.0.2"⟩, ⟨.afLink, "aa:bb:cc:dd:ee:ff"⟩])]
  net_if_stats := fun i => if i = "eth0" then some ⟨true, 1000⟩ else none
  public_ip := none
  net_io_total := (111, 222)
  net_io_start := (0, 0)
  net_io_end := (0, 750000)
  ping := none

/-- A network environment in which the only interface carrying an IPv4
address is named "Local Area Connection" — not a loopback device, but
its lowercased name starts with "lo". -/
def localAreaNetEnv : NetEnv :=
  { sampleNetEnv with
    net_if_addrs :=
      [("Local Area Connection", [⟨.afInet, "192.168.0.2"⟩, ⟨.afLink, "aa:bb:cc:dd:ee:ff"⟩])]
    net_if_stats := fun _ => some ⟨true, 1000⟩ }

/-- A device environment on which every sub-collector succeeds. -/
def sampleDeviceEnv : DeviceEnv where
  platformEnv := samplePlatformEnv
  cpuQuery := sampleCpuQuery
  memQuery := sampleMemQuery
  diskEnv := sampleDiskEnv
  netEnv := sampleNetEnv
  now := 1500

/-- The same device environment with a failing CPU identification
query. -/
def cpuFailDeviceEnv : DeviceEnv :=
  { sampleDeviceEnv with cpuQuery := .error ⟨.other, "cpuinfo exploded"⟩ }

/-! ## Theorems -/

/-- C3: Calling `get_device_info` with `params=None` behaves exactly as
calling it with a params value whose five inclusion flags are all
explicitly true: the defaulted `GetDeviceInfoParams()` has every flag
`True`, so the two calls are the same function application. -/
theorem get_device_info_default_params (env : DeviceEnv) :
    get_device_info env none =
      get_device_info env (some { include_platform := true, include_cpu := true,
                                  include_memory := true, include_disk := true,
                                  include_network := true }) := rfl

/-- Once an instance is cached, every further sequence of constructor
calls returns that same instance and allocates nothing. -/
lemma deviceInfoCalls_cached (n i k : Nat) :
    deviceInfoCalls n ⟨some i, k⟩ = (⟨some i, k⟩, List.replicate n i) := by
  induction n with
  | zero => rfl
  | succ n ih => simp [deviceInfoCalls, deviceInfoNew, ih, List.replicate]

/-- C9: In a fresh process, any sequence of `n+1` constructions of
`DeviceInfo` returns the identical object every time (the list of
returned identities is `n+1` copies of the first one) and the
underlying object is allocated exactly once (the allocator advanced by
exactly one). -/
theorem deviceInfo_singleton (n : Nat) :
    (deviceInfoCalls (n + 1) initialSingletonState).2 = List.replicate (n + 1) 0 ∧
    (deviceInfoCalls (n + 1) initialSingletonState).1 = ⟨some 0, 1⟩ := by
  simp [deviceInfoCalls, deviceInfoNew, initialSingletonState, deviceInfoCalls_cached,
    List.replicate]

/-- Witness for C3 on a concrete environment. -/
theorem get_device_info_default_params_witness :
    get_device_info sampleDeviceEnv none =
      get_device_info sampleDeviceEnv
        (some { include_platform := true, include_cpu := true, include_memory := true,
                include_disk := true, include_network := true }) :=
  get_device_info_default_params sampleDeviceEnv

/-- Witness for C9 at three constructor calls: all three return the
instance with identity 0 and the allocator advanced exactly once. -/
theorem deviceInfo_singleton_witness :
    (deviceInfoCalls 3 initialSingletonState).2 = [0, 0, 0] ∧
    (deviceInfoCalls 3 initialSingletonState).1 = ⟨some 0, 1⟩ :=
  ⟨by simpa using (deviceInfo_singleton 2).1, (deviceInfo_singleton 2).2⟩

/-- C5: The percent reported for an accessible partition is
`round(used/total*100, 2)` when `total > 0` and exactly `0.0` when
`total = 0`; with `total=1000, used=250` it is exactly `25.0`. -/
theorem partition_percent_formula (p : PartitionEnv) (t u f : Nat) :
    (0 < t → (mkPartitionInfo p t u f).percent =
      some (round2 ((u : ℚ) / (t : ℚ) * 100))) ∧
    (t = 0 → (mkPartitionInfo p t u f).percent = some 0) ∧
    (mkPartitionInfo p 1000 250 f).percent = some 25 := by
  refine ⟨fun ht => ?_, fun ht => ?_, ?_⟩
  · simp [mkPartitionInfo, partitionPercent, ht]
  · simp [mkPartitionInfo, partitionPercent, ht]
  · have : partitionPercent 1000 250 = 25 := by
      norm_num [partitionPercent, round2, pyRoundInt]
    simp [mkPartitionInfo, this]

/-- Witness for C5 at `total=1000, used=250`: the hypothesis `0 < 1000`
holds and the reported percent is the rounded ratio, concretely `25.0`. -/
theorem partition_percent_formula_witness :
    0 < 1000 ∧
    (mkPartitionInfo samplePartition 1000 250 750).percent =
      some (round2 ((250 : ℚ) / (1000 : ℚ) * 100)) ∧
    (mkPartitionInfo samplePartition 1000 250 750).percent = some 25 :=
  ⟨by norm_num,
   (partition_percent_formula samplePartition 1000 250 750).1 (by norm_num),
   (partition_percent_formula samplePartition 1000 250 750).2.2⟩

/-- Counterexample to C4 as stated: on Linux, a machine-ID read failure
can raise out of `_platform_info`.  With `/etc/machine-id` unreadable
for a reason other than absence (`PermissionError("permission denied")`)
the collector does not fall back to the dbus file (which here would
succeed with "dbusid") and the whole platform collection fails. -/
theorem platform_machine_id_can_raise :
    platform_info linuxPermDeniedEnv =
      .error "Failed to get platform info: permission denied" := rfl

/-- C4 (amended): machine-ID resolution is best-effort on Windows and
Darwin (any failure leaves `machine_id` null and the platform result is
still returned), and on Linux only when reading `/etc/machine-id`
fails with `FileNotFoundError`: then the collector falls back to
`/var/lib/dbus/machine-id`, any failure of which leaves `machine_id`
null; but a non-`FileNotFoundError` failure reading `/etc/machine-id`
propagates and fails the whole platform collection. -/
theorem platform_machine_id_best_effort (env : PlatformEnv) (h : String)
    (hh : env.gethostname = .ok h) :
    (pyLower env.system = "windows" → ∀ e, env.winreg_machine_guid = .error e →
      (platform_info env).toOption.map (fun r => r.machine_id) = some none) ∧
    (pyLower env.system = "linux" → ∀ e, env.read_etc_machine_id = .error e →
      (e.kind = .fileNotFound →
        (∀ s, env.read_dbus_machine_id = .ok s →
          (platform_info env).toOption.map (fun r => r.machine_id) =
            some (some (pyStrip s))) ∧
        (∀ e2, env.read_dbus_machine_id = .error e2 →
          (platform_info env).toOption.map (fun r => r.machine_id) = some none)) ∧
      (e.kind ≠ .fileNotFound →
        platform_info env = .error ("Failed to get platform info: " ++ e.msg))) ∧
    (pyLower env.system = "darwin" → ∀ e, env.ioreg_uuid_match = .error e →
      (platform_info env).toOption.map (fun r => r.machine_id) = some none) := by
  refine ⟨fun hw e he => ?_, fun hl e he => ⟨fun hf => ⟨fun s hs => ?_, fun e2 he2 => ?_⟩,
    fun hf => ?_⟩, fun hd e he => ?_⟩
  · simp [platform_info, hh, machineIdResolve, hw, he, Except.toOption]
  · simp [platform_info, hh, machineIdResolve, hl, he, hf, hs, Except.toOption]
  · simp [platform_info, hh, machineIdResolve, hl, he, hf, he2, Except.toOption]
  · simp [platform_info, hh, machineIdResolve, hl, he, hf]
  · simp [platform_info, hh, machineIdResolve, hd, he, Except.toOption]

/-- Witness for C4 (amended) on a concrete Linux host whose
`/etc/machine-id` is absent and whose dbus fallback file reads
"dbusid": the platform result is returned with that machine id. -/
theorem platform_machine_id_best_effort_witness :
    linuxAbsentEtcEnv.gethostname = .ok "atlas-host" ∧
    pyLower linuxAbsentEtcEnv.system = "linux" ∧
    linuxAbsentEtcEnv.read_etc_machine_id = .error ⟨.fileNotFound, "no such file"⟩ ∧
    (platform_info linuxAbsentEtcEnv).toOption.map (fun r => r.machine_id) =
      some (some (pyStrip "dbusid")) :=
  ⟨rfl, by decide, rfl,
   ((platform_machine_id_best_effort linuxAbsentEtcEnv "atlas-host" rfl).2.1
      (by decide) ⟨.fileNotFound, "no such file"⟩ rfl).1 rfl |>.1 "dbusid" rfl⟩

/-- C8: The reported download speed is
`round(Δrecv_bytes * 8 / 3_000_000, 2)` when that value is strictly
positive and null otherwise — never 0 — and symmetrically for the
upload speed over `Δsent_bytes`. -/
theorem network_speed_reporting (env : NetEnv) (h : String)
    (hh : env.gethostname = .ok h) :
    (0 < throughputMbps env.net_io_start.2 env.net_io_end.2 →
      (network_info env).toOption.map (fun r => r.download_speed) =
        some (some (throughputMbps env.net_io_start.2 env.net_io_end.2))) ∧
    (throughputMbps env.net_io_start.2 env.net_io_end.2 ≤ 0 →
      (network_info env).toOption.map (fun r => r.download_speed) = some none) ∧
    (network_info env).toOption.map (fun r => r.download_speed) ≠ some (some 0) ∧
    (0 < throughputMbps env.net_io_start.1 env.net_io_end.1 →
      (network_info env).toOption.map (fun r => r.upload_speed) =
        some (some (throughputMbps env.net_io_start.1 env.net_io_end.1))) ∧
    (throughputMbps env.net_io_start.1 env.net_io_end.1 ≤ 0 →
      (network_info env).toOption.map (fun r => r.upload_speed) = some none) ∧
    (network_info env).toOption.map (fun r => r.upload_speed) ≠ some (some 0) := by
  refine ⟨fun hd => ?_, fun hd => ?_, ?_, fun hu => ?_, fun hu => ?_, ?_⟩
  · simp [network_info, hh, Except.toOption, hd]
  · have hd2 : ¬ 0 < throughputMbps env.net_io_start.2 env.net_io_end.2 := not_lt.mpr hd
    simp [network_info, hh, Except.toOption, hd2]
  · by_cases hd : 0 < throughputMbps env.net_io_start.2 env.net_io_end.2
    · simp [network_info, hh, Except.toOption, hd]
      exact ne_of_gt hd
    · simp [network_info, hh, Except.toOption, hd]
  · simp [network_info, hh, Except.toOption, hu]
  · have hu2 : ¬ 0 < throughputMbps env.net_io_start.1 env.net_io_end.1 := not_lt.mpr hu
    simp [network_info, hh, Except.toOption, hu2]
  · by_cases hu : 0 < throughputMbps env.net_io_start.1 env.net_io_end.1
    · simp [network_info, hh, Except.toOption, hu]
      exact ne_of_gt hu
    · simp [network_info, hh, Except.toOption, hu]

/-- Witness for C8 on a concrete environment: over the 3-second window
750000 bytes were received (`round(750000*8/3_000_000, 2) = 2.0` Mbps,
reported) and 0 bytes were sent (computed speed 0, reported as null). -/
theorem network_speed_reporting_witness :
    sampleNetEnv.gethostname = .ok "atlas-host" ∧
    0 < throughputMbps sampleNetEnv.net_io_start.2 sampleNetEnv.net_io_end.2 ∧
    throughputMbps sampleNetEnv.net_io_start.1 sampleNetEnv.net_io_end.1 ≤ 0 ∧
    (network_info sampleNetEnv).toOption.map (fun r => r.download_speed) =
      some (some (throughputMbps sampleNetEnv.net_io_start.2 sampleNetEnv.net_io_end.2)) ∧
    (network_info sampleNetEnv).toOption.map (fun r => r.upload_speed) = some none := by
  have hd : 0 < throughputMbps sampleNetEnv.net_io_start.2 sampleNetEnv.net_io_end.2 := by
    norm_num [sampleNetEnv, throughputMbps, round2, pyRoundInt]
  have hu : throughputMbps sampleNetEnv.net_io_start.1 sampleNetEnv.net_io_end.1 ≤ 0 := by
    norm_num [sampleNetEnv, throughputMbps, round2, pyRoundInt]
  exact ⟨rfl, hd, hu,
    (network_speed_reporting sampleNetEnv "atlas-host" rfl).1 hd,
    (network_speed_reporting sampleNetEnv "atlas-host" rfl).2.2.2.2.1 hu⟩

/-- Interfaces whose names all begin (case-insensitively) with "lo" are
all skipped, so the selection loop leaves its state unchanged. -/
lemma scanIfaces_all_loopback (stats : String → Option IfStats)
    (ifaces : List (String × List IfAddr)) (st : IfaceSel)
    (h : ∀ x ∈ ifaces, isLoopbackName x.1 = true) :
    scanIfaces stats ifaces st = st := by
  induction ifaces with
  | nil => rfl
  | cons hd tl ih =>
    obtain ⟨iface, addrs⟩ := hd
    have h1 : isLoopbackName iface = true := h (iface, addrs) (List.mem_cons_self _ _)
    simp [scanIfaces, h1]
    exact ih fun x hx => h x (List.mem_cons_of_mem _ hx)

/-- C10: Every interface whose lowercased name starts with "lo" (or
"loopback") is skipped regardless of its addresses or up-status, so if
every enumerated interface has such a name — e.g. "Local Area
Connection" — the network result has `local_ip`, `interface_name`,
`interface_speed` and `mac_address` all null. -/
theorem network_loopback_name_skipped (env : NetEnv) (h : String)
    (hh : env.gethostname = .ok h)
    (hlo : ∀ x ∈ env.net_if_addrs, isLoopbackName x.1 = true) :
    (network_info env).toOption.map
        (fun r => (r.local_ip, r.interface_name, r.interface_speed, r.mac_address)) =
      some (none, none, none, none) := by
  simp [network_info, hh, Except.toOption,
    scanIfaces_all_loopback env.net_if_stats env.net_if_addrs {} hlo, IfaceSel]

/-- Witness for C10: in an environment whose only interface is named
"Local Area Connection" — carrying a routable IPv4 address, a MAC
address, and up with speed 1000 — the four primary-interface fields are
nevertheless all null. -/
theorem network_loopback_name_skipped_witness :
    localAreaNetEnv.gethostname = .ok "atlas-host" ∧
    (∀ x ∈ localAreaNetEnv.net_if_addrs, isLoopbackName x.1 = true) ∧
    (network_info localAreaNetEnv).toOption.map
        (fun r => (r.local_ip, r.interface_name, r.interface_speed, r.mac_address)) =
      some (none, none, none, none) :=
  ⟨rfl, by decide,
   network_loopback_name_skipped localAreaNetEnv "atlas-host" rfl (by decide)⟩

/-- A collect step fails with `m` exactly when a previous step already
failed with `m`, or no previous step failed, this category is enabled
and its sub-collector fails with `m`. -/
lemma collectStep_error_char {α : Type} (cond : Bool) (sub : Except String α)
    (set : α → GetDeviceInfoReturn → GetDeviceInfoReturn)
    (acc : Except String GetDeviceInfoReturn) (accFail : Option String)
    (hacc : ∀ m, acc = .error m ↔ accFail = some m) :
    ∀ m, collectStep cond sub set acc = .error m ↔
      (accFail <|> (if cond then errMsg sub else none)) = some m := by
  intro m
  cases accFail with
  | some s =>
    have he : acc = .error s := (hacc s).mpr rfl
    rw [he]
    simp [collectStep]
  | none =>
    cases acc with
    | error e => exact absurd ((hacc e).mp rfl) (by simp)
    | ok r =>
      cases cond with
      | false => simp [collectStep]
      | true =>
        cases sub with
        | ok v => simp [collectStep, errMsg]
        | error e => simp [collectStep, errMsg]

/-- `collectBody` fails with `m` exactly when the first enabled failing
sub-collector fails with `m`. -/
lemma collectBody_error_char (env : DeviceEnv) (p : GetDeviceInfoParams) :
    ∀ m, collectBody env p = .error m ↔ firstEnabledFailure env p = some m := by
  have h0 : ∀ m, (Except.ok { timestamp := some env.now } :
      Except String GetDeviceInfoReturn) = .error m ↔ (none : Option String) = some m := by
    simp
  have h1 := collectStep_error_char p.include_platform (platform_info env.platformEnv)
    (fun v r => { r with platform := some v }) _ _ h0
  simp only [Option.none_orElse] at h1
  have h2 := collectStep_error_char p.include_cpu (cpu_info env.cpuQuery)
    (fun v r => { r with cpu := some v }) _ _ h1
  have h3 := collectStep_error_char p.include_memory (memory_info env.memQuery)
    (fun v r => { r with memory := some v }) _ _ h2
  have h4 := collectStep_error_char p.include_disk (disk_info env.diskEnv)
    (fun v r => { r with disk := some v }) _ _ h3
  have h5 := collectStep_error_char p.include_network (network_info env.netEnv)
    (fun v r => { r with network := some v }) _ _ h4
  exact h5

/-- Every error raised by `_platform_info` carries the platform
category message. -/
lemma platform_info_error_shape (env : PlatformEnv) :
    ∀ m, platform_info env = .error m → ∃ c, m = "Failed to get platform info: " ++ c := by
  intro m h
  cases hg : env.gethostname with
  | error e =>
    simp [platform_info, hg] at h
    exact ⟨e.msg, h.symm⟩
  | ok hn =>
    cases hm : machineIdResolve env (pyLower env.system) with
    | error e =>
      simp [platform_info, hg, hm] at h
      exact ⟨e.msg, h.symm⟩
    | ok mid => simp [platform_info, hg, hm] at h

/-- Every error raised by `_cpu_info` carries the CPU category message. -/
lemma cpu_info_error_shape (q : Except Exn CpuQuery) :
    ∀ m, cpu_info q = .error m → ∃ c, m = "Failed to obtain CPU information: " ++ c := by
  intro m h
  cases q with
  | error e =>
    simp [cpu_info] at h
    exact ⟨e.msg, h.symm⟩
  | ok c => simp [cpu_info] at h

/-- Every error raised by `_memory_info` carries the memory category
message. -/
lemma memory_info_error_shape (q : Except Exn MemQuery) :
    ∀ m, memory_info q = .error m → ∃ c, m = "Failed to get memory info: " ++ c := by
  intro m h
  cases q with
  | error e =>
    simp [memory_info] at h
    exact ⟨e.msg, h.symm⟩
  | ok c => simp [memory_info] at h

/-- Every error raised by `_disk_info` carries the disk category
message. -/
lemma disk_info_error_shape (env : DiskEnv) :
    ∀ m, disk_info env = .error m → ∃ c, m = "Failed to get disk info: " ++ c := by
  intro m h
  cases hps : env.disk_partitions with
  | error e =>
    simp [disk_info, hps] at h
    exact ⟨e.msg, h.symm⟩
  | ok ps =>
    cases hl : diskLoop ps ⟨[], 0, 0, 0, []⟩ with
    | error e =>
      simp [disk_info, hps, hl] at h
      exact ⟨e.msg, h.symm⟩
    | ok acc => simp [disk_info, hps, hl] at h

/-- Every error raised by `_network_info` carries the network category
message. -/
lemma network_info_error_shape (env : NetEnv) :
    ∀ m, network_info env = .error m → ∃ c, m = "Failed to get network info: " ++ c := by
  intro m h
  cases hg : env.gethostname with
  | error e =>
    simp [network_info, hg] at h
    exact ⟨e.msg, h.symm⟩
  | ok hn => simp [network_info, hg] at h

/-- C1: If any enabled sub-collector raises, `get_device_info` returns
no snapshot: it fails with exactly one error, whose message is the
orchestrator message "Failed to get device information: " wrapped
around the failing category's own message (which itself carries the
category identification, e.g. "Failed to get platform info: ...",
"Failed to obtain CPU information: ..."); when no enabled
sub-collector fails a snapshot is returned. -/
theorem get_device_info_error_wrapping (env : DeviceEnv) (p : GetDeviceInfoParams) :
    (∀ m, firstEnabledFailure env p = some m →
      get_device_info env (some p) =
        .error ("Failed to get device information: " ++ m)) ∧
    (firstEnabledFailure env p = none →
      ∃ r, get_device_info env (some p) = .ok r) ∧
    (∀ m, errMsg (platform_info env.platformEnv) = some m →
      ∃ c, m = "Failed to get platform info: " ++ c) ∧
    (∀ m, errMsg (cpu_info env.cpuQuery) = some m →
      ∃ c, m = "Failed to obtain CPU information: " ++ c) ∧
    (∀ m, errMsg (memory_info env.memQuery) = some m →
      ∃ c, m = "Failed to get memory info: " ++ c) ∧
    (∀ m, errMsg (disk_info env.diskEnv) = some m →
      ∃ c, m = "Failed to get disk info: " ++ c) ∧
    (∀ m, errMsg (network_info env.netEnv) = some m →
      ∃ c, m = "Failed to get network info: " ++ c) ∧
    (firstEnabledFailure env p = none ↔
      (p.include_platform = true → errMsg (platform_info env.platformEnv) = none) ∧
      (p.include_cpu = true → errMsg (cpu_info env.cpuQuery) = none) ∧
      (p.include_memory = true → errMsg (memory_info env.memQuery) = none) ∧
      (p.include_disk = true → errMsg (disk_info env.diskEnv) = none) ∧
      (p.include_network = true → errMsg (network_info env.netEnv) = none)) := by
  have horelse : ∀ a b : Option String, (a <|> b) = none ↔ a = none ∧ b = none := by
    intro a b; cases a <;> simp
  refine ⟨fun m hm => ?_, fun hnone => ?_, fun m hm => ?_, fun m hm => ?_,
    fun m hm => ?_, fun m hm => ?_, fun m hm => ?_, ?_⟩
  · have hb : collectBody env p = .error m := (collectBody_error_char env p m).mpr hm
    simp [get_device_info, hb]
  · cases hcb : collectBody env p with
    | error e =>
      exact absurd ((collectBody_error_char env p e).mp hcb) (by simp [hnone])
    | ok r => exact ⟨r, by simp [get_device_info, hcb]⟩
  · cases he : platform_info env.platformEnv with
    | error e =>
      rw [he] at hm
      simp [errMsg] at hm
      exact hm ▸ platform_info_error_shape env.platformEnv e he
    | ok v => rw [he] at hm; simp [errMsg] at hm
  · cases he : cpu_info env.cpuQuery with
    | error e =>
      rw [he] at hm
      simp [errMsg] at hm
      exact hm ▸ cpu_info_error_shape env.cpuQuery e he
    | ok v => rw [he] at hm; simp [errMsg] at hm
  · cases he : memory_info env.memQuery with
    | error e =>
      rw [he] at hm
      simp [errMsg] at hm
      exact hm ▸ memory_info_error_shape env.memQuery e he
    | ok v => rw [he] at hm; simp [errMsg] at hm
  · cases he : disk_info env.diskEnv with
    | error e =>
      rw [he] at hm
      simp [errMsg] at hm
      exact hm ▸ disk_info_error_shape env.diskEnv e he
    | ok v => rw [he] at hm; simp [errMsg] at hm
  · cases he : network_info env.netEnv with
    | error e =>
      rw [he] at hm
      simp [errMsg] at hm
      exact hm ▸ network_info_error_shape env.netEnv e he
    | ok v => rw [he] at hm; simp [errMsg] at hm
  · rcases p with ⟨bp, bc, bm, bd, bn⟩
    simp only [firstEnabledFailure, horelse]
    cases bp <;> cases bc <;> cases bm <;> cases bd <;> cases bn <;> simp [and_assoc]

/-- Witness for C1: with all five categories enabled and the CPU
identification query raising "cpuinfo exploded", the call returns no
snapshot and fails with the doubly-wrapped message. -/
theorem get_device_info_error_wrapping_witness :
    firstEnabledFailure cpuFailDeviceEnv {} =
      some "Failed to obtain CPU information: cpuinfo exploded" ∧
    get_device_info cpuFailDeviceEnv (some {}) =
      .error "Failed to get device information: Failed to obtain CPU information: cpuinfo exploded" :=
  ⟨rfl,
   (get_device_info_error_wrapping cpuFailDeviceEnv {}).1
     "Failed to obtain CPU information: cpuinfo exploded" rfl⟩

/-- C2: For all 32 combinations of the five inclusion flags, when every
enabled sub-collector succeeds the call returns a snapshot whose five
category fields are non-null for exactly the categories whose flag is
true and null for exactly those whose flag is false. -/
theorem get_device_info_option_gating (env : DeviceEnv) (p : GetDeviceInfoParams)
    (hp : p.include_platform = true → ∃ v, platform_info env.platformEnv = .ok v)
    (hc : p.include_cpu = true → ∃ v, cpu_info env.cpuQuery = .ok v)
    (hm : p.include_memory = true → ∃ v, memory_info env.memQuery = .ok v)
    (hd : p.include_disk = true → ∃ v, disk_info env.diskEnv = .ok v)
    (hn : p.include_network = true → ∃ v, network_info env.netEnv = .ok v) :
    (get_device_info env (some p)).toOption.map
        (fun r => (r.platform.isSome, r.cpu.isSome, r.memory.isSome,
                   r.disk.isSome, r.network.isSome)) =
      some (p.include_platform, p.include_cpu, p.include_memory,
            p.include_disk, p.include_network) := by
  rcases p with ⟨bp, bc, bm, bd, bn⟩
  dsimp only at hp hc hm hd hn ⊢
  obtain ⟨pv, hpv⟩ : ∃ v, bp = true → platform_info env.platformEnv = .ok v := by
    cases bp with
    | false => exact ⟨default, fun h => absurd h (by simp)⟩
    | true => obtain ⟨v, hv⟩ := hp rfl; exact ⟨v, fun _ => hv⟩
  obtain ⟨cv, hcv⟩ : ∃ v, bc = true → cpu_info env.cpuQuery = .ok v := by
    cases bc with
    | false => exact ⟨default, fun h => absurd h (by simp)⟩
    | true => obtain ⟨v, hv⟩ := hc rfl; exact ⟨v, fun _ => hv⟩
  obtain ⟨mv, hmv⟩ : ∃ v, bm = true → memory_info env.memQuery = .ok v := by
    cases bm with
    | false => exact ⟨default, fun h => absurd h (by simp)⟩
    | true => obtain ⟨v, hv⟩ := hm rfl; exact ⟨v, fun _ => hv⟩
  obtain ⟨dv, hdv⟩ : ∃ v, bd = true → disk_info env.diskEnv = .ok v := by
    cases bd with
    | false => exact ⟨default, fun h => absurd h (by simp)⟩
    | true => obtain ⟨v, hv⟩ := hd rfl; exact ⟨v, fun _ => hv⟩
  obtain ⟨nv, hnv⟩ : ∃ v, bn = true → network_info env.netEnv = .ok v := by
    cases bn with
    | false => exact ⟨default, fun h => absurd h (by simp)⟩
    | true => obtain ⟨v, hv⟩ := hn rfl; exact ⟨v, fun _ => hv⟩
  cases bp <;> cases bc <;> cases bm <;> cases bd <;> cases bn <;>
    simp [get_device_info, collectBody, collectStep, Except.toOption,
      hpv, hcv, hmv, hdv, hnv]

/-- Witness for C2 at the flag combination
`{includeCpu: true, others: false}` on an all-succeeding environment:
the snapshot has `cpu` non-null and the other four categories null. -/
theorem get_device_info_option_gating_witness :
    (∃ v, platform_info sampleDeviceEnv.platformEnv = .ok v) ∧
    (∃ v, cpu_info sampleDeviceEnv.cpuQuery = .ok v) ∧
    (∃ v, memory_info sampleDeviceEnv.memQuery = .ok v) ∧
    (∃ v, disk_info sampleDeviceEnv.diskEnv = .ok v) ∧
    (∃ v, network_info sampleDeviceEnv.netEnv = .ok v) ∧
    (get_device_info sampleDeviceEnv (some ⟨false, true, false, false, false⟩)).toOption.map
        (fun r => (r.platform.isSome, r.cpu.isSome, r.memory.isSome,
                   r.disk.isSome, r.network.isSome)) =
      some (false, true, false, false, false) :=
  ⟨⟨_, rfl⟩, ⟨_, rfl⟩, ⟨_, rfl⟩, ⟨_, rfl⟩, ⟨_, rfl⟩,
   get_device_info_option_gating sampleDeviceEnv ⟨false, true, false, false, false⟩
     (fun _ => ⟨_, rfl⟩) (fun _ => ⟨_, rfl⟩) (fun _ => ⟨_, rfl⟩)
     (fun _ => ⟨_, rfl⟩) (fun _ => ⟨_, rfl⟩)⟩

/-- Characterization of the partition loop when no partition raises an
unabsorbed exception: it appends exactly the accessible partitions'
entries, byte totals and percentages to the accumulators. -/
lemma diskLoop_char (ps : List PartitionEnv)
    (hok : ∀ p ∈ ps, ∃ o, resolveUsage p = .ok o) :
    ∀ acc : DiskAcc, diskLoop ps acc = .ok {
      partitions_info := acc.partitions_info ++
        (accessibleOf ps).map (fun x => mkPartitionInfo x.1 x.2.1 x.2.2.1 x.2.2.2)
      total_disk_space := acc.total_disk_space + ((accessibleOf ps).map (fun x => x.2.1)).sum
      total_used_space := acc.total_used_space + ((accessibleOf ps).map (fun x => x.2.2.1)).sum
      total_free_space := acc.total_free_space + ((accessibleOf ps).map (fun x => x.2.2.2)).sum
      usage_percentages := acc.usage_percentages ++
        (accessibleOf ps).map (fun x => partitionPercent x.2.1 x.2.2.1) } := by
  induction ps with
  | nil => intro acc; simp [diskLoop, accessibleOf]
  | cons p rest ih =>
    intro acc
    obtain ⟨o, ho⟩ := hok p (List.mem_cons_self _ _)
    have hrest : ∀ q ∈ rest, ∃ o, resolveUsage q = .ok o :=
      fun q hq => hok q (List.mem_cons_of_mem _ hq)
    cases o with
    | none =>
      rw [show diskLoop (p :: rest) acc = diskLoop rest acc by rw [diskLoop, ho]]
      rw [ih hrest acc]
      simp [accessibleOf, List.filterMap_cons, ho]
    | some u =>
      obtain ⟨t, u1, f⟩ := u
      rw [show diskLoop (p :: rest) acc = diskLoop rest
            { partitions_info := acc.partitions_info ++ [mkPartitionInfo p t u1 f]
              total_disk_space := acc.total_disk_space + t
              total_used_space := acc.total_used_space + u1
              total_free_space := acc.total_free_space + f
              usage_percentages := acc.usage_percentages ++ [partitionPercent t u1] }
          by rw [diskLoop, ho]]
      rw [ih hrest _]
      simp [accessibleOf, List.filterMap_cons, ho, add_assoc]

/-- C6: When partition enumeration succeeds and no partition raises an
unabsorbed exception, the disk result's three byte totals equal the
sums of the accessible partitions' total, used and free bytes, and the
average usage percent is the 2-decimal rounding of the arithmetic mean
of the accessible partitions' percents — null exactly when zero
partitions are accessible. -/
theorem disk_info_aggregation (env : DiskEnv) (ps : List PartitionEnv)
    (hps : env.disk_partitions = .ok ps)
    (hok : ∀ p ∈ ps, ∃ o, resolveUsage p = .ok o) :
    (disk_info env).toOption.map
        (fun r => (r.total_disk_space, r.total_used_space, r.total_free_space)) =
      some (some ((accessibleOf ps).map (fun x => x.2.1)).sum,
            some ((accessibleOf ps).map (fun x => x.2.2.1)).sum,
            some ((accessibleOf ps).map (fun x => x.2.2.2)).sum) ∧
    (accessibleOf ps = [] →
      (disk_info env).toOption.map (fun r => r.average_usage_percent) = some none) ∧
    (accessibleOf ps ≠ [] →
      (disk_info env).toOption.map (fun r => r.average_usage_percent) =
        some (some (round2
          (((accessibleOf ps).map (fun x => partitionPercent x.2.1 x.2.2.1)).sum /
            ((accessibleOf ps).length : ℚ))))) := by
  have hchar := diskLoop_char ps hok ⟨[], 0, 0, 0, []⟩
  refine ⟨?_, fun hemp => ?_, fun hne => ?_⟩
  · simp [disk_info, hps, hchar, Except.toOption]
  · simp [disk_info, hps, hchar, Except.toOption, hemp]
  · have hne2 : (accessibleOf ps).map (fun x => partitionPercent x.2.1 x.2.2.1) ≠ [] := by
      simpa using hne
    simp [disk_info, hps, hchar, Except.toOption, hne2]

/-- Witness for C6 on an enumeration with one accessible partition
(1000 total, 250 used, 750 free) and one permission-denied partition:
the totals are 1000/250/750 and the average percent is exactly 25.0. -/
theorem disk_info_aggregation_witness :
    sampleDiskEnv.disk_partitions = .ok [samplePartition, deniedPartition] ∧
    (∀ p ∈ [samplePartition, deniedPartition], ∃ o, resolveUsage p = .ok o) ∧
    (disk_info sampleDiskEnv).toOption.map
        (fun r => (r.total_disk_space, r.total_used_space, r.total_free_space)) =
      some (some 1000, some 250, some 750) ∧
    (disk_info sampleDiskEnv).toOption.map (fun r => r.average_usage_percent) =
      some (some 25) := by
  have hok : ∀ p ∈ [samplePartition, deniedPartition], ∃ o, resolveUsage p = .ok o := by
    intro p hp
    rcases List.mem_cons.mp hp with rfl | hp2
    · exact ⟨some (1000, 250, 750), rfl⟩
    rcases List.mem_cons.mp hp2 with rfl | hp3
    · exact ⟨none, rfl⟩
    · exact absurd hp3 (List.not_mem_nil _)
  have h := disk_info_aggregation sampleDiskEnv [samplePartition, deniedPartition] rfl hok
  refine ⟨rfl, hok, h.1, ?_⟩
  have hacc : accessibleOf [samplePartition, deniedPartition] =
      [(samplePartition, (1000, 250, 750))] := rfl
  have h2 := h.2.2 (by simp [hacc])
  have heval : round2 ((((accessibleOf [samplePartition, deniedPartition]).map
      (fun x => partitionPercent x.2.1 x.2.2.1)).sum) /
      (((accessibleOf [samplePartition, deniedPartition]).length : ℚ))) = 25 := by
    rw [hacc]
    norm_num [partitionPercent, round2, pyRoundInt]
  rw [h2, heval]

/-- C7: In the disk sub-collector, partitions whose usage resolution is
denied (an `OSError`-family failure, after the shutil fallback) are
skipped silently: when enumeration succeeds and every partition either
resolves or is skipped, the result is a success whose partition list
consists of exactly the accessible partitions' entries and whose byte
totals and average usage percent are computed over exactly the
accessible partitions (skipped ones contribute to neither the list,
nor the sums, nor the average — which is null when nothing is
accessible), and a failure of the I/O-counter read only leaves
`io_stats` null; a failure of the partition-enumeration step itself
fails the whole disk category with the wrapped disk message. -/
theorem disk_info_partial_failure_policy (env : DiskEnv) (ps : List PartitionEnv)
    (hok : ∀ p ∈ ps, ∃ o, resolveUsage p = .ok o) :
    (env.disk_partitions = .ok ps →
      (disk_info env).toOption.map (fun r => r.partitions) =
        some ((accessibleOf ps).map (fun x => mkPartitionInfo x.1 x.2.1 x.2.2.1 x.2.2.2)) ∧
      (disk_info env).toOption.map
          (fun r => (r.total_disk_space, r.total_used_space, r.total_free_space)) =
        some (some ((accessibleOf ps).map (fun x => x.2.1)).sum,
              some ((accessibleOf ps).map (fun x => x.2.2.1)).sum,
              some ((accessibleOf ps).map (fun x => x.2.2.2)).sum) ∧
      (accessibleOf ps = [] →
        (disk_info env).toOption.map (fun r => r.average_usage_percent) = some none) ∧
      (accessibleOf ps ≠ [] →
        (disk_info env).toOption.map (fun r => r.average_usage_percent) =
          some (some (round2
            (((accessibleOf ps).map (fun x => partitionPercent x.2.1 x.2.2.1)).sum /
              ((accessibleOf ps).length : ℚ))))) ∧
      (∀ e, env.disk_io_counters = .error e →
        (disk_info env).toOption.map (fun r => r.io_stats) = some none)) ∧
    (∀ e, env.disk_partitions = .error e →
      disk_info env = .error ("Failed to get disk info: " ++ e.msg)) := by
  have hchar := diskLoop_char ps hok ⟨[], 0, 0, 0, []⟩
  refine ⟨fun hps => ⟨?_, ?_, fun hemp => ?_, fun hne => ?_, fun e he => ?_⟩, fun e he => ?_⟩
  · simp [disk_info, hps, hchar, Except.toOption]
  · simp [disk_info, hps, hchar, Except.toOption]
  · simp [disk_info, hps, hchar, Except.toOption, hemp]
  · have hne2 : (accessibleOf ps).map (fun x => partitionPercent x.2.1 x.2.2.1) ≠ [] := by
      simpa using hne
    simp [disk_info, hps, hchar, Except.toOption, hne2]
  · simp [disk_info, hps, hchar, Except.toOption, he]
  · simp [disk_info, he]

/-- Witness for C7: with one accessible partition (25% used), one
denied partition and failing I/O counters, the result succeeds, lists
only the accessible partition, sums only its bytes, reports an average
of exactly 25.0 (the skipped partition contributes nothing — were it
counted as a 0% entry the mean would be 12.5), and has null
`io_stats`. -/
theorem disk_info_partial_failure_policy_witness :
    (∀ p ∈ [samplePartition, deniedPartition], ∃ o, resolveUsage p = .ok o) ∧
    sampleDiskEnv.disk_partitions = .ok [samplePartition, deniedPartition] ∧
    sampleDiskEnv.disk_io_counters = .error ⟨.other, "counters unavailable"⟩ ∧
    (disk_info sampleDiskEnv).toOption.map (fun r => r.partitions) =
      some [mkPartitionInfo samplePartition 1000 250 750] ∧
    (disk_info sampleDiskEnv).toOption.map (fun r => r.average_usage_percent) =
      some (some 25) ∧
    (disk_info sampleDiskEnv).toOption.map (fun r => r.io_stats) = some none := by
  have hok : ∀ p ∈ [samplePartition, deniedPartition], ∃ o, resolveUsage p = .ok o := by
    intro p hp
    rcases List.mem_cons.mp hp with rfl | hp2
    · exact ⟨some (1000, 250, 750), rfl⟩
    rcases List.mem_cons.mp hp2 with rfl | hp3
    · exact ⟨none, rfl⟩
    · exact absurd hp3 (List.not_mem_nil _)
  have h := (disk_info_partial_failure_policy sampleDiskEnv
    [samplePartition, deniedPartition] hok).1 rfl
  have hacc : accessibleOf [samplePartition, deniedPartition] =
      [(samplePartition, (1000, 250, 750))] := rfl
  have havg := h.2.2.2.1 (by simp [hacc])
  have heval : round2 ((((accessibleOf [samplePartition, deniedPartition]).map
      (fun x => partitionPercent x.2.1 x.2.2.1)).sum) /
      (((accessibleOf [samplePartition, deniedPartition]).length : ℚ))) = 25 := by
    rw [hacc]
    norm_num [partitionPercent, round2, pyRoundInt]
  exact ⟨hok, rfl, rfl, h.1, by rw [havg, heval],
    h.2.2.2.2 ⟨.other, "counters unavailable"⟩ rfl⟩

end Atlas
